import Mathlib

set_option maxRecDepth 40000

/-
Verification development for the tool-installation automation pipeline.

The Lean definitions below are a shallow embedding of the Python sources:
  src/src/core/script_validator.py   (ScriptValidator)
  src/src/core/docker_runner.py      (DockerRunner)
  src/src/core/shared_deps.py        (SharedDependencyAggregator)
  src/src/core/composer.py           (MultiToolComposer)
  src/src/core/orchestrator.py       (built-in-tools orchestrator, used by main.py)
  src/src/core/orchestrator_v1.py    (staged orchestrator)
  src/src/models/installation.py, src/src/models/tool.py (data models)

External effects (subprocess results, the script-authoring agent, the Docker
daemon, Python's regular-expression engine) are passed in as explicit
environment values, so every pipeline function is a pure function of its
inputs and of that environment.
-/

namespace ToolAutomation

/-! ## String primitives (embeddings of the Python str operations used) -/

/-- Lower-cases an ASCII letter; other characters unchanged (ASCII case of Python str.lower). -/
def lowerChar (c : Char) : Char :=
  if 'A' ≤ c ∧ c ≤ 'Z' then Char.ofNat (c.toNat + 32) else c

/-- Embedding of Python str.lower for the ASCII package names handled here. -/
def lowerStr (s : String) : String := String.mk (s.data.map lowerChar)

/-- Whitespace test matching the characters Python str.strip removes (ASCII range). -/
def isWsChar (c : Char) : Bool :=
  c = ' ' ∨ c = '\t' ∨ c = '\n' ∨ c = '\x0d' ∨ c = '\x0b' ∨ c = '\x0c'

/-- Embedding of Python str.strip. -/
def trimStr (s : String) : String :=
  String.mk (((s.data.dropWhile isWsChar).reverse.dropWhile isWsChar).reverse)

/-- Embedding of Python str.startswith. -/
def startsWithStr (pre s : String) : Bool := pre.data.isPrefixOf s.data

/-- Embedding of Python str.endswith. -/
def endsWithStr (post s : String) : Bool := List.isSuffixOf post.data s.data

/-- Contiguous-sublist test on character lists. -/
def isSubChars (pat : List Char) : List Char → Bool
  | [] => pat.isEmpty
  | c :: rest => pat.isPrefixOf (c :: rest) || isSubChars pat rest

/-- Embedding of the Python substring test (pat in s). -/
def containsStr (pat s : String) : Bool := isSubChars pat.data s.data

/-- Embedding of the Python single-character membership test (c in s). -/
def hasChar (c : Char) (s : String) : Bool := s.data.contains c

/-- Embedding of the Python slice s[:n]. -/
def strTake (n : Nat) (s : String) : String := String.mk (s.data.take n)

/-- Embedding of Python sep.join(items). -/
def joinWith (sep : String) : List String → String
  | [] => ""
  | [x] => x
  | x :: y :: rest => x ++ sep ++ joinWith sep (y :: rest)

/-- Embedding of Python repr of a list of plain strings, as interpolated into f-strings. -/
def pyReprList (l : List String) : String :=
  "[" ++ joinWith ", " (l.map (fun s => "\x27" ++ s ++ "\x27")) ++ "]"

/-- Decimal rendering of an integer, as Python str() does inside f-strings. -/
def intToStr (i : Int) : String :=
  match i with
  | .ofNat n => toString n
  | .negSucc n => "-" ++ toString (n + 1)

/-- Rendering of a Python Optional[str] inside an f-string: None prints as the text None. -/
def optStr : Option String → String
  | none => "None"
  | some s => s

/-- The string order used by Python sorted(): lexicographic on code points. -/
def pyLe (a b : String) : Prop := a.data ≤ b.data

instance : DecidableRel pyLe := fun a b => inferInstanceAs (Decidable (a.data ≤ b.data))

instance : IsTrans String pyLe := ⟨fun _ _ _ h h' => le_trans h h'⟩

instance : IsTotal String pyLe := ⟨fun a b => le_total a.data b.data⟩

instance : IsAntisymm String pyLe :=
  ⟨fun a b h h' => by cases a; cases b; exact congrArg String.mk (le_antisymm h h')⟩

/-- Embedding of Python sorted() over a set of strings. -/
def sortedOf (s : Finset String) : List String := Finset.sort pyLe s

/-! ## Data models (src/src/models) -/

/-- Status of one validation step (models/installation.py ValidationStatus). -/
inductive VStatus
  | passed
  | failed
  | skipped
deriving DecidableEq, Repr

/-- Result of one validation step (models/installation.py ValidationResult). -/
structure VResult where
  step : String
  status : VStatus
  output : Option String := none
  error : Option String := none
  duration_seconds : Option Nat := none
deriving DecidableEq, Repr

/-- Per-job status values (models/tool.py ToolStatus). -/
inductive TStatus
  | pending
  | in_progress
  | generating
  | validating
  | installing
  | completed
  | failed
  | skipped
deriving DecidableEq, Repr

/-- Tool specification fields used by the pipeline (models/tool.py ToolSpec). -/
structure ToolSpec where
  name : String
  version : String
  validate_cmd : String
deriving DecidableEq, Repr

/-! ## Static validator (src/src/core/script_validator.py) -/

/-- Outcome of one subprocess.run / communicate call, as seen by the caller. -/
inductive SubprocOutcome
  | completed (exitCode : Int) (stdout : String) (stderr : String)
  | timedOut
  | raised (msg : String)
deriving DecidableEq, Repr

/-- External effects consumed by ScriptValidator.validate_script: the result of
the bash -n subprocess, shellcheck availability and its subprocess result, any
exception raised while reading the script file, and the behavior of Python
re.search / re.findall (the regex engine is external to the embedded code and
is passed in as an oracle). -/
structure CheckEnv where
  read_error : Option String
  bash_outcome : SubprocOutcome
  shellcheck_available : Bool
  shellcheck_outcome : SubprocOutcome
  re_search : String → String → Bool
  re_findall : String → String → List String

/-- Splits a string at newline characters (used for shellcheck output lines). -/
def splitNl (s : String) : List String :=
  (s.data.foldr
    (fun c acc =>
      match acc with
      | [] => [[c]]
      | l :: ls => if c = '\n' then [] :: (l :: ls) else (c :: l) :: ls)
    [[]]).map String.mk

/-- ScriptValidator._validate_shebang. -/
def validate_shebang (content : String) (env : CheckEnv) : VResult :=
  match env.read_error with
  | some m => { step := "shebang_check", status := .failed, error := some m }
  | none =>
    let first_line := trimStr (String.mk (content.data.takeWhile (fun c => !(c = '\n'))))
    if first_line = "#!/usr/bin/env bash" then
      { step := "shebang_check", status := .passed, output := some "Correct shebang found" }
    else
      { step := "shebang_check", status := .failed,
        error := some ("Invalid shebang: " ++ first_line) }

/-- ScriptValidator._validate_safety_flags. -/
def validate_safety_flags (content : String) (env : CheckEnv) : VResult :=
  match env.read_error with
  | some m => { step := "safety_flags", status := .failed, error := some m }
  | none =>
    if containsStr "set -euo pipefail" content then
      { step := "safety_flags", status := .passed, output := some "Safety flags present" }
    else
      { step := "safety_flags", status := .failed,
        error := some "Missing \x27set -euo pipefail\x27" }

/-- ScriptValidator._validate_bash_syntax (bash -n subprocess). -/
def validate_bash_syntax_step (env : CheckEnv) : VResult :=
  match env.bash_outcome with
  | .completed code _ stderr =>
    if code = 0 then
      { step := "bash_syntax", status := .passed, output := some "Syntax check passed" }
    else
      { step := "bash_syntax", status := .failed,
        error := some (if stderr = "" then "Syntax error" else stderr) }
  | .timedOut =>
    { step := "bash_syntax", status := .failed, error := some "Syntax check timed out" }
  | .raised m => { step := "bash_syntax", status := .failed, error := some m }

/-- ScriptValidator._validate_shellcheck. -/
def validate_shellcheck (env : CheckEnv) : VResult :=
  if !env.shellcheck_available then
    { step := "shellcheck", status := .skipped, output := some "shellcheck not available" }
  else
    match env.shellcheck_outcome with
    | .completed code out _ =>
      if code = 0 then
        { step := "shellcheck", status := .passed, output := some "No issues found" }
      else
        let issues := (splitNl out).filter (fun l => !(trimStr l = ""))
        let error_count := (issues.filter (fun l => containsStr ":error:" l)).length
        if error_count = 0 then
          { step := "shellcheck", status := .passed,
            output := some ("Warnings only: " ++ toString issues.length ++ " issues") }
        else
          { step := "shellcheck", status := .failed,
            error := some (toString error_count ++ " errors found"),
            output := some (joinWith "\n" (issues.take 10)) }
    | .timedOut =>
      { step := "shellcheck", status := .failed, error := some "shellcheck timed out" }
    | .raised m => { step := "shellcheck", status := .failed, error := some m }

/-- The idempotency guard patterns from ScriptValidator._validate_idempotency_pattern. -/
def idempotency_patterns : List String :=
  ["if.*command -v", "if.*test -f", "if.*\\[.*-f", "dpkg -l.*grep", "which", "command -v"]

/-- ScriptValidator._validate_idempotency_pattern. -/
def validate_idempotency_pattern (content : String) (env : CheckEnv) : VResult :=
  match env.read_error with
  | some m => { step := "idempotency_check", status := .failed, error := some m }
  | none =>
    let found := idempotency_patterns.filter (fun p => env.re_search p content)
    if !(found = []) then
      { step := "idempotency_check", status := .passed,
        output := some ("Found idempotency patterns: " ++ joinWith ", " found) }
    else
      { step := "idempotency_check", status := .failed,
        error := some "No idempotency patterns found",
        output := some "Script should check if tool is already installed" }

/-- The secret-detection regexes from ScriptValidator._validate_no_secrets. -/
def secret_patterns : List String :=
  ["(api[_-]?key|apikey|secret[_-]?key|password|passwd|pwd)\\s*=\\s*[\x22\x27]?[^\x22\x27\\s]+",
   "(token|auth[_-]?token|access[_-]?token)\\s*=\\s*[\x22\x27]?[^\x22\x27\\s]+",
   "-----BEGIN (RSA |DSA |EC |OPENSSH )?PRIVATE KEY-----",
   "[a-zA-Z0-9+/]\x7b40,\x7d=\x7b0,2\x7d"]

/-- ScriptValidator._validate_no_secrets. -/
def validate_no_secrets (content : String) (env : CheckEnv) : VResult :=
  match env.read_error with
  | some m => { step := "secrets_check", status := .failed, error := some m }
  | none =>
    let found := secret_patterns.flatMap (fun p => env.re_findall p content)
    if !(found = []) then
      { step := "secrets_check", status := .failed,
        error := some "Potential secrets found",
        output := some ("Found " ++ toString found.length ++ " potential secrets") }
    else
      { step := "secrets_check", status := .passed, output := some "No secrets detected" }

/-- ScriptValidator.validate_script. The filesystem is passed as a map from
paths to file contents; a missing path models Path.exists() returning False. -/
def validate_script (fs : String → Option String) (script_path : String)
    (env : CheckEnv) : List VResult :=
  match fs script_path with
  | none =>
    [{ step := "file_check", status := .failed,
       error := some ("Script file not found: " ++ script_path) }]
  | some content =>
    [validate_shebang content env,
     validate_safety_flags content env,
     validate_bash_syntax_step env,
     validate_shellcheck env,
     validate_idempotency_pattern content env,
     validate_no_secrets content env]

/-! ## Dynamic validator (src/src/core/docker_runner.py) -/

/-- DockerRunner configuration with the defaults read in DockerRunner.__init__. -/
structure DockerConfig where
  base_image : String := "ubuntu:22.04"
  build_timeout : Nat := 300
  run_timeout : Nat := 600
  cleanup_containers : Bool := true
deriving DecidableEq, Repr

/-- Final state of a spawned subprocess at the end of run_installation:
either it was never started, or it was awaited (communicate) or explicitly
terminated and then waited on, i.e. reaped. -/
inductive ProcState
  | not_started
  | reaped
deriving DecidableEq, Repr

/-- Outcome of the docker build subprocess, as decided by the environment:
it completed with an exit code and combined output, it exceeded the build
timeout, or spawning it raised an exception. -/
inductive BuildOutcome
  | completed (exitCode : Int) (output : String)
  | timedOut
  | raised (msg : String)
deriving DecidableEq, Repr

/-- Outcome of the docker run subprocess (same reading as BuildOutcome). -/
inductive RunContainerOutcome
  | completed (exitCode : Int) (stdout : String) (stderr : String)
  | timedOut
  | raised (msg : String)
deriving DecidableEq, Repr

/-- Behavior of the two cleanup subprocess calls in DockerRunner._cleanup:
both succeed, the docker rm call raises, or the docker rmi call raises. -/
inductive CleanupBehavior
  | ok
  | rm_raised (msg : String)
  | rmi_raised (msg : String)
deriving DecidableEq, Repr

/-- External effects consumed by one DockerRunner.run_installation call:
an exception during context setup (temp dir / copy / Dockerfile write),
the build and run subprocess outcomes, the cleanup behavior, the timestamp
used in the container name, and the text _extract_version produces for a
passing run (its regex heuristics are external and passed as a value). -/
structure DockerEnv where
  setup_error : Option String
  build : BuildOutcome
  run : RunContainerOutcome
  cleanup_behavior : CleanupBehavior
  timestamp : Nat
  version_info : String
deriving DecidableEq, Repr

/-- The unique container name chosen in run_installation. -/
def container_name (spec : ToolSpec) (ts : Nat) : String :=
  "tool-install-" ++ spec.name ++ "-" ++ toString ts

/-- DockerRunner._build_image: returns (success, output) and the final state
of the build subprocess. On timeout the process is terminated then waited on. -/
def build_image (cfg : DockerConfig) (env : DockerEnv) : (Bool × String) × ProcState :=
  match env.build with
  | .completed code out => ((decide (code = 0), out), .reaped)
  | .timedOut =>
    ((false, "Build timed out after " ++ toString cfg.build_timeout ++ " seconds"), .reaped)
  | .raised m => ((false, m), .not_started)

/-- DockerRunner._run_container: runs the validation command in the image and
turns the outcome into a ValidationResult, with the run subprocess final state. -/
def run_container (cfg : DockerConfig) (env : DockerEnv) : VResult × ProcState :=
  match env.run with
  | .completed code out err =>
    if code = 0 then
      ({ step := "docker_validation", status := .passed,
         output := some ("Tool installed successfully. " ++ env.version_info),
         duration_seconds := some 0 }, .reaped)
    else
      ({ step := "docker_validation", status := .failed,
         error := some ("Validation command failed with exit code " ++ intToStr code),
         output := some ("STDOUT:\n" ++ out ++ "\n\nSTDERR:\n" ++ err) }, .reaped)
  | .timedOut =>
    ({ step := "docker_validation", status := .failed,
       error := some ("Validation timed out after " ++ toString cfg.run_timeout ++ " seconds") },
     .reaped)
  | .raised m =>
    ({ step := "docker_validation", status := .failed, error := some m }, .not_started)

/-- A docker resource-removal command invoked during cleanup. -/
inductive CleanupAction
  | rm_container (name : String)
  | rm_image (tag : String)
deriving DecidableEq, Repr

/-- DockerRunner._cleanup: the removal commands actually invoked. Both
subprocess calls sit in one try block, so an exception in docker rm skips
the docker rmi call; every exception is caught and logged. -/
def docker_cleanup (name : String) (behavior : CleanupBehavior) : List CleanupAction :=
  match behavior with
  | .ok => [.rm_container name, .rm_image (name ++ ":latest")]
  | .rm_raised _ => [.rm_container name]
  | .rmi_raised _ => [.rm_container name, .rm_image (name ++ ":latest")]

/-- The try-block body of DockerRunner.run_installation: the ValidationResult
returned and the final states of the build and run subprocesses. -/
def run_installation_core (cfg : DockerConfig) (env : DockerEnv) :
    VResult × ProcState × ProcState :=
  match env.setup_error with
  | some m =>
    ({ step := "docker_execution", status := .failed, error := some m },
     .not_started, .not_started)
  | none =>
    match build_image cfg env with
    | ((ok, out), bp) =>
      if !ok then
        ({ step := "docker_build", status := .failed,
           error := some "Failed to build Docker image", output := some out },
         bp, .not_started)
      else
        match run_container cfg env with
        | (res, rp) => (res, bp, rp)

/-- Everything run_installation leaves behind: the result handed to the
caller, the subprocess final states, and the cleanup commands invoked in
the finally block. -/
structure RunInstallationOut where
  result : VResult
  build_proc : ProcState
  run_proc : ProcState
  cleanup_actions : List CleanupAction
deriving DecidableEq, Repr

/-- DockerRunner.run_installation: try-block body plus the finally-block
cleanup, which runs only when cleanup_containers is configured. -/
def run_installation (cfg : DockerConfig) (spec : ToolSpec) (env : DockerEnv) :
    RunInstallationOut :=
  match run_installation_core cfg env with
  | (res, bp, rp) =>
    { result := res, build_proc := bp, run_proc := rp,
      cleanup_actions :=
        if cfg.cleanup_containers then
          docker_cleanup (container_name spec env.timestamp) env.cleanup_behavior
        else [] }

/-! ## Dependency aggregator (src/src/core/shared_deps.py) -/

/-- One per-tool dependency manifest, with the prerequisite fields read by
SharedDependencyAggregator.aggregate (prerequisites.apt / runtimes / libs /
services and env_exports.PATH). -/
structure DependencyManifest where
  apt : List String
  runtimes : List String
  libs : List String
  services : List String
  path_entries : List String
deriving DecidableEq, Repr

/-- The alias table from _normalize_shared_requirements mapping meta-lib
names to Debian package names. -/
def alias_map : List (String × List String) :=
  [("gdal", ["gdal-bin", "libgdal-dev"]),
   ("cartopy", ["python3-cartopy"]),
   ("geopandas", ["python3-geopandas"]),
   ("h5py", ["python3-h5py"]),
   ("libboost", ["libboost-all-dev"]),
   ("libcurl", ["libcurl4", "libcurl4-openssl-dev"]),
   ("libffi", ["libffi-dev"]),
   ("libfontconfig", ["libfontconfig1-dev"]),
   ("libfreetype", ["libfreetype6-dev"]),
   ("libfribidi", ["libfribidi-dev"]),
   ("libharfbuzz", ["libharfbuzz-dev"]),
   ("libjpeg", ["libjpeg-dev"]),
   ("libkrb5", ["libkrb5-dev"]),
   ("libpng", ["libpng-dev"]),
   ("libpq", ["libpq-dev"]),
   ("libsasl2", ["libsasl2-dev"]),
   ("libssl", ["libssl-dev"]),
   ("libtiff", ["libtiff5-dev"]),
   ("libxml2", ["libxml2-dev"]),
   ("libxslt", ["libxslt1-dev"]),
   ("zlib", ["zlib1g-dev"]),
   ("netcdf4", ["libnetcdf-dev"])]

/-- The python-only identifiers excluded from the apt layer. -/
def python_names : List String := ["cartopy", "geopandas", "h5py"]

/-- The post-aliasing replacement table rewriting generic names to their
dev-package variants. -/
def dev_replacements : List (String × String) :=
  [("libsasl2", "libsasl2-dev"),
   ("libssl", "libssl-dev"),
   ("libpng", "libpng-dev"),
   ("libtiff", "libtiff5-dev"),
   ("libxml2", "libxml2-dev"),
   ("libxslt", "libxslt1-dev")]

/-- Dictionary lookup in the alias table (Python alias_map[lk]). -/
def alias_lookup (k : String) : Option (List String) :=
  (alias_map.find? (fun p => p.1 = k)).map (fun p => p.2)

/-- Contribution of one raw apt name to the normalized apt set
(first loop of _normalize_shared_requirements). -/
def apt_contrib (a : String) : Finset String :=
  let key := trimStr a
  let lk := lowerStr key
  match alias_lookup lk with
  | some mapped =>
    if mapped.any (fun p => startsWithStr "python3-" p) then ∅ else mapped.toFinset
  | none => if lk ∈ python_names then ∅ else {key}

/-- Contribution of one raw apt name to the python-only set. -/
def apt_contrib_py (a : String) : Finset String :=
  let key := trimStr a
  let lk := lowerStr key
  match alias_lookup lk with
  | some mapped =>
    if mapped.any (fun p => startsWithStr "python3-" p) then {key} else ∅
  | none => if lk ∈ python_names then {key} else ∅

/-- Contribution of one raw lib name to the normalized apt set
(second loop of _normalize_shared_requirements). -/
def lib_contrib (l : String) : Finset String :=
  let key := trimStr l
  let lk := lowerStr key
  if lk ∈ python_names then ∅
  else
    match alias_lookup lk with
    | some mapped => (mapped.filter (fun m => !(startsWithStr "python3-" m))).toFinset
    | none =>
      if startsWithStr "lib" lk || endsWithStr "-dev" lk then {key} else ∅

/-- Contribution of one raw lib name to the python-only set. -/
def lib_contrib_py (l : String) : Finset String :=
  let key := trimStr l
  let lk := lowerStr key
  if lk ∈ python_names then {key} else ∅

/-- Contribution of one raw lib name to the unknown set. -/
def lib_contrib_unknown (l : String) : Finset String :=
  let key := trimStr l
  let lk := lowerStr key
  if lk ∈ python_names then ∅
  else
    match alias_lookup lk with
    | some _ => ∅
    | none =>
      if startsWithStr "lib" lk || endsWithStr "-dev" lk then ∅ else {key}

/-- The final cleanup loop of _normalize_shared_requirements: each generic
name still present is discarded and its dev-package variant inserted. -/
def apply_dev_replacements (s : Finset String) : Finset String :=
  dev_replacements.foldl
    (fun acc p => if p.1 ∈ acc then insert p.2 (acc.erase p.1) else acc) s

/-- SharedDependencyAggregator._normalize_shared_requirements: returns
(apt_pkgs, python_only, unknown). The Python loops only ever add elements,
and each iteration depends only on the current element, so the loop result
is the union of the per-element contributions. -/
def normalize_shared_requirements (apt libs : Finset String) :
    Finset String × Finset String × Finset String :=
  let apt_pkgs := apt.biUnion apt_contrib ∪ libs.biUnion lib_contrib
  let python_only := apt.biUnion apt_contrib_py ∪ libs.biUnion lib_contrib_py
  let unknown := libs.biUnion lib_contrib_unknown
  (apply_dev_replacements apt_pkgs, python_only, unknown)

/-- The aggregated manifest emitted by SharedDependencyAggregator.aggregate
(the dictionary written to shared_manifest.json, with sorted lists). -/
structure AggregatedManifest where
  apt : List String
  runtimes : List String
  libs : List String
  python : List String
  unknown : List String
  services : List String
  env_path : List String
deriving DecidableEq, Repr

/-- Set union of one field across all manifests (the set.update loop in
aggregate; Python set semantics). -/
def union_of (f : DependencyManifest → List String) (ms : List DependencyManifest) :
    Finset String :=
  (ms.flatMap f).toFinset

/-- SharedDependencyAggregator.aggregate over a list of loaded manifests. -/
def aggregate (ms : List DependencyManifest) : AggregatedManifest :=
  let apt := union_of (fun m => m.apt) ms
  let runtimes := union_of (fun m => m.runtimes) ms
  let libs := union_of (fun m => m.libs) ms
  let services := union_of (fun m => m.services) ms
  let env_path := union_of (fun m => m.path_entries) ms
  match normalize_shared_requirements apt libs with
  | (apt_norm, python_norm, unknown) =>
    { apt := sortedOf apt_norm,
      runtimes := sortedOf runtimes,
      libs := sortedOf libs,
      python := sortedOf python_norm,
      unknown := sortedOf unknown,
      services := sortedOf services,
      env_path := sortedOf env_path }

/-! ## Composer (src/src/core/composer.py) -/

/-- One entry of the run's tools directory as seen by MultiToolComposer:
its name, whether it is a directory, whether tool_setup.sh exists in it,
whether tool_manifest.json exists and loads, and the validate_cmd value of
that manifest when present. -/
structure DirEntry where
  name : String
  is_dir : Bool
  has_setup : Bool
  has_manifest : Bool
  manifest_validate_cmd : Option String
deriving DecidableEq, Repr

/-- Order on directory entries induced by sorted(self.tools_dir.iterdir()):
paths share the tools-directory prefix, so path order is name order. -/
def dirLe (a b : DirEntry) : Prop := pyLe a.name b.name

instance : DecidableRel dirLe := fun a b => inferInstanceAs (Decidable (pyLe a.name b.name))

instance : IsTrans DirEntry dirLe := ⟨fun _ _ _ h h' => le_trans h h'⟩

instance : IsTotal DirEntry dirLe := ⟨fun a b => le_total a.name.data b.name.data⟩

/-- MultiToolComposer._list_tools: sorted directory entries that are
directories containing tool_setup.sh. -/
def list_tools (entries : List DirEntry) : List String :=
  ((List.insertionSort dirLe entries).filter
    (fun d => d.is_dir && d.has_setup)).map (fun d => d.name)

/-- MultiToolComposer._read_manifest followed by manifest.get("validate_cmd"):
none when the manifest is missing or failed to load. -/
def read_manifest_cmd (entries : List DirEntry) (name : String) : Option String :=
  match entries.find? (fun d => d.name = name) with
  | some d => if d.has_manifest then d.manifest_validate_cmd else none
  | none => none

/-- The effective validation command for one tool in _generate_run_all:
manifest.get("validate_cmd") or the name --version fallback (Python or also
replaces an empty string). -/
def validate_cmd_of (entries : List DirEntry) (name : String) : String :=
  match read_manifest_cmd entries name with
  | some c => if c = "" then name ++ " --version" else c
  | none => name ++ " --version"

/-- Embedding of validate_cmd.replace with a backslash-escaped double quote,
applied character by character (the pattern is a single character). -/
def escDq (s : String) : String :=
  String.mk (s.data.flatMap (fun c => if c = '\x22' then ['\\', '\x22'] else [c]))

/-- The validation line emitted for one tool by _generate_run_all, choosing
among the three quoting paths. -/
def validation_line (entries : List DirEntry) (name : String) : String :=
  let cmd := validate_cmd_of entries name
  if hasChar '\x22' cmd && !(hasChar '\x27' cmd) then
    "log \x27Validating " ++ name ++ "\x27 && bash -lc \x27" ++ cmd ++ "\x27"
  else if hasChar '\x27' cmd && !(hasChar '\x22' cmd) then
    "log \x27Validating " ++ name ++ "\x27 && bash -lc \x22" ++ cmd ++ "\x22"
  else
    "log \x27Validating " ++ name ++ "\x27 && bash -lc \x22" ++ escDq cmd ++ "\x22"

/-- The four lines _generate_run_all emits for one tool. -/
def tool_block (entries : List DirEntry) (name : String) : List String :=
  ["log \x27Installing " ++ name ++ "\x27",
   "chmod +x /workspace/tools/" ++ name ++ "/tool_setup.sh",
   "/workspace/tools/" ++ name ++ "/tool_setup.sh --skip-prereqs || /workspace/tools/" ++
     name ++ "/tool_setup.sh",
   validation_line entries name]

/-- The fixed header lines of run_all.sh. The third line holds a literal
newline and tab, exactly as the Python source string does. -/
def run_all_header : List String :=
  ["#!/usr/bin/env bash",
   "set -euo pipefail",
   "IFS=$\x27\n\t\x27",
   "log() \x7b echo \x22[compose][$(date -u +\x27%Y-%m-%dT%H:%M:%SZ\x27)] $*\x22; \x7d",
   "export DEBIAN_FRONTEND=noninteractive",
   "chmod +x /workspace/shared_setup.sh || true",
   "log \x27Running shared_setup.sh\x27 && /workspace/shared_setup.sh"]

/-- All lines of run_all.sh for the given tool names. -/
def run_all_lines (entries : List DirEntry) (tool_names : List String) : List String :=
  run_all_header ++ tool_names.flatMap (tool_block entries)

/-- Embedding of Python "\n".join(lines). -/
def joinNl : List String → String
  | [] => ""
  | [l] => l
  | l :: l' :: ls => l ++ "\n" ++ joinNl (l' :: ls)

/-- The text _generate_run_all writes to run_all.sh. -/
def run_all_content (entries : List DirEntry) (tool_names : List String) : String :=
  joinNl (run_all_lines entries tool_names) ++ "\n"

/-- MultiToolComposer.create_artifacts, restricted to the data the claims
are about: the discovered tool names and the driver-script text. -/
def create_artifacts (entries : List DirEntry) : List String × String :=
  let tool_names := list_tools entries
  (tool_names, run_all_content entries tool_names)

/-! ### Quote-structure model of bash text

To state that a generated script is syntactically valid at the quoting
level, shell text is lexed by a five-state machine tracking single quotes,
double quotes and backslash escapes (inside double quotes a backslash never
lets the following character terminate the string, which is exactly bash's
quote-boundary behavior). A text is well quoted when lexing ends outside
any quote and not in the middle of an escape. -/

/-- Lexer state: outside quotes, inside single quotes, inside double quotes,
or just after a backslash (outside or inside double quotes). -/
inductive QState
  | normal
  | inSingle
  | inDouble
  | escNormal
  | escDouble
deriving DecidableEq, Repr

/-- One step of the quote lexer. -/
def lexChar (st : QState) (c : Char) : QState :=
  match st with
  | .normal =>
    if c = '\\' then .escNormal
    else if c = '\x27' then .inSingle
    else if c = '\x22' then .inDouble
    else .normal
  | .escNormal => .normal
  | .inSingle => if c = '\x27' then .normal else .inSingle
  | .inDouble =>
    if c = '\\' then .escDouble
    else if c = '\x22' then .normal
    else .inDouble
  | .escDouble => .inDouble

/-- Lexing a whole string from a given state. -/
def lexStr (st : QState) (s : String) : QState := s.data.foldl lexChar st

/-- A shell text is well quoted when lexing it from the outside state ends
in the outside state. -/
def well_quoted (s : String) : Bool := lexStr .normal s = .normal

/-- Characters safe to interpolate into the generated script in any quoting
context: not a quote of either kind and not a backslash. -/
def plainChar (c : Char) : Bool :=
  !(c = '\x27') && !(c = '\x22') && !(c = '\\')

/-- A string of plain characters (tool names interpolated into the driver). -/
def plain_name (s : String) : Bool := s.data.all plainChar

/-- A string free of backslashes (the condition under which the double-quote
escaping paths of _generate_run_all produce well-quoted output). -/
def no_backslash (s : String) : Bool := !(s.data.contains '\\')

/-! ## Orchestrators (src/src/core/orchestrator_v1.py and orchestrator.py) -/

/-- One update_tool_status call on the work-list collaborator (the Google
Sheets client). update_tool_status catches its own exceptions, so each call
is modeled as always recording the write. -/
structure StatusWrite where
  status : TStatus
  message : Option String := none
  artifact_path : Option String := none
deriving DecidableEq, Repr

/-- Outcome of the ClaudeClient.generate_installation_script call in the v1
orchestrator: a response carrying the script text and the self-review
blockers list, or a raised exception. -/
inductive ClaudeGenOutcome
  | ok (script_bash : String) (blockers : List String)
  | raised (msg : String)
deriving DecidableEq, Repr

/-- External effects consumed by one _process_tool job in orchestrator_v1:
the agent call outcome, exceptions from the three artifact-saving calls
(save_script, metadata save_json, provenance save_json), the validator's
subprocess environment, and the docker runner environment. -/
structure JobEnvV1 where
  claude : ClaudeGenOutcome
  save_script_error : Option String
  save_metadata_error : Option String
  check_env : CheckEnv
  docker : DockerEnv
  save_provenance_error : Option String

/-- The path artifact_manager.save_script returns for a tool, relative to
the run directory. -/
def script_path_of (name : String) : String := "tools/" ++ name ++ "/tool_setup.sh"

/-- Success tail of _process_tool: provenance is saved after the local
status moves to completed but before the completed write reaches the
work-list, so a provenance exception turns into a failed write. -/
def finish_v1 (env : JobEnvV1) (spec : ToolSpec) (w : List StatusWrite) :
    Bool × List StatusWrite :=
  match env.save_provenance_error with
  | some m => (false, w ++ [{ status := .failed, message := some ("Error: " ++ m) }])
  | none =>
    (true, w ++ [{ status := .completed, message := some "Installation successful",
                   artifact_path :=
                     some ("artifacts/" ++ spec.name ++ "/" ++ spec.version ++ "/") }])

/-- ToolInstallationOrchestrator._process_tool (orchestrator_v1.py): returns
the job's success flag and the ordered status writes sent to the work-list
collaborator. Exceptions from awaited calls are caught at the job boundary
and converted into a failed write (message Error: ...). -/
def process_tool_v1 (dry_run : Bool) (docker_cfg : DockerConfig) (spec : ToolSpec)
    (env : JobEnvV1) : Bool × List StatusWrite :=
  let w0 : List StatusWrite := [{ status := .in_progress }, { status := .generating }]
  match env.claude with
  | .raised m => (false, w0 ++ [{ status := .failed, message := some ("Error: " ++ m) }])
  | .ok script blockers =>
    if !(blockers = []) then
      (false, w0 ++ [{ status := .failed,
                       message := some ("Claude reported blockers: " ++ pyReprList blockers) }])
    else
      match env.save_script_error with
      | some m => (false, w0 ++ [{ status := .failed, message := some ("Error: " ++ m) }])
      | none =>
        match env.save_metadata_error with
        | some m => (false, w0 ++ [{ status := .failed, message := some ("Error: " ++ m) }])
        | none =>
          let w1 := w0 ++ [{ status := .validating }]
          let vresults := validate_script
            (fun p => if p = script_path_of spec.name then some script else none)
            (script_path_of spec.name) env.check_env
          if vresults.any (fun v => v.status = .failed) then
            (false, w1 ++ [{ status := .failed, message := some "Static validation failed" }])
          else
            if !dry_run then
              let w2 := w1 ++ [{ status := .installing }]
              let dres := (run_installation docker_cfg spec env.docker).result
              if dres.status = .failed then
                (false, w2 ++ [{ status := .failed,
                                 message := some ("Docker installation failed: " ++
                                   optStr dres.error) }])
              else finish_v1 env spec w2
            else finish_v1 env spec w1

/-- The result dictionary ClaudeInstallationAgent.install_tool hands back to
the built-in-tools orchestrator, through the .get accesses it performs. -/
structure AgentResult where
  success : Bool
  errors : Option (List String)
  script_path : Option String
  tool_calls_made : Nat
deriving DecidableEq, Repr

/-- Outcome of the install_tool call: the result dictionary or a raised
exception. -/
inductive AgentOutcome
  | ok (r : AgentResult)
  | raised (msg : String)
deriving DecidableEq, Repr

/-- External effects of one _process_tool_with_claude job (orchestrator.py):
the agent outcome and an exception from saving claude_result.json, which
happens after the verdict write. -/
structure JobEnvV3 where
  agent : AgentOutcome
  save_result_error : Option String
deriving DecidableEq, Repr

/-- ToolInstallationOrchestrator._process_tool_with_claude (orchestrator.py,
the orchestrator main.py runs): success flag and ordered status writes. -/
def process_tool_v3 (spec : ToolSpec) (env : JobEnvV3) : Bool × List StatusWrite :=
  let w0 : List StatusWrite :=
    [{ status := .in_progress,
       message := some "Claude agent working with built-in tools..." }]
  match env.agent with
  | .raised m =>
    (false, w0 ++ [{ status := .failed, message := some ("Claude agent error: " ++ m) }])
  | .ok r =>
    let w1 :=
      if r.success then
        w0 ++ [{ status := .completed,
                 message := some "Installation successful (Claude built-in tools)",
                 artifact_path :=
                   some (r.script_path.getD
                     ("artifacts/tools/" ++ spec.name ++ "/tool_setup.sh")) }]
      else
        w0 ++ [{ status := .failed,
                 message := some ("Installation failed: " ++
                   strTake 200 (joinWith "; " (r.errors.getD ["Unknown error"]))) }]
    match env.save_result_error with
    | some m =>
      (false, w1 ++ [{ status := .failed, message := some ("Claude agent error: " ++ m) }])
    | none => (r.success, w1)

/-- Concurrent processing in orchestrator run: asyncio.gather over one task
per pending tool; each task is a pure function of its own spec and
environment, so the result list is a map. -/
def run_jobs_v1 (dry_run : Bool) (docker_cfg : DockerConfig)
    (jobs : List (ToolSpec × JobEnvV1)) : List (Bool × List StatusWrite) :=
  jobs.map (fun j => process_tool_v1 dry_run docker_cfg j.1 j.2)

/-- True when every status after the first failed entry is failed again:
once a job records failed, no further pipeline-stage status is written. -/
def after_failed_all_failed (l : List TStatus) : Bool :=
  (l.dropWhile (fun s => !(s = .failed))).all (fun s => s = .failed)

/-! ## Concrete fixtures used by witnesses and counterexamples -/

/-- A benign validator environment: no exceptions, clean subprocesses,
shellcheck absent, a regex engine that never matches. -/
def envCheck0 : CheckEnv :=
  { read_error := none,
    bash_outcome := .completed 0 "" "",
    shellcheck_available := false,
    shellcheck_outcome := .completed 0 "" "",
    re_search := fun _ _ => false,
    re_findall := fun _ _ => [] }

/-- A sample tool specification. -/
def specFoo : ToolSpec := { name := "foo", version := "1.0", validate_cmd := "foo --version" }

/-- A docker environment in which build and run both succeed. -/
def envDockerOk : DockerEnv :=
  { setup_error := none,
    build := .completed 0 "build ok",
    run := .completed 0 "foo 1.0" "",
    cleanup_behavior := .ok,
    timestamp := 7,
    version_info := "Version verified: 1.0" }

/-- A docker environment whose image build exceeds the build timeout. -/
def envDockerBuildTimeout : DockerEnv :=
  { setup_error := none,
    build := .timedOut,
    run := .completed 0 "" "",
    cleanup_behavior := .ok,
    timestamp := 7,
    version_info := "" }

/-- Two sample manifests for the aggregation round trip. -/
def manifestA : DependencyManifest :=
  { apt := ["curl", "libssl"], runtimes := ["python"], libs := ["libpng"],
    services := [], path_entries := ["/opt/a/bin"] }

/-- Second sample manifest (distinct field contents). -/
def manifestB : DependencyManifest :=
  { apt := ["git"], runtimes := ["node"], libs := ["cartopy"],
    services := ["docker"], path_entries := [] }

/-- A successful built-in-tools agent result. -/
def agentResultOk : AgentResult :=
  { success := true, errors := some [], script_path := none, tool_calls_made := 3 }

/-- A built-in-tools job environment for a successful job. -/
def envV3Ok : JobEnvV3 := { agent := .ok agentResultOk, save_result_error := none }

/-- A 250-character exception message. -/
def long_err : String := String.mk (List.replicate 250 'x')

/-- A built-in-tools job environment whose agent call raises with a long
exception message. -/
def envV3LongRaise : JobEnvV3 := { agent := .raised long_err, save_result_error := none }

/-- A built-in-tools agent result reporting failure. -/
def agentResultFail : AgentResult :=
  { success := false, errors := some ["boom"], script_path := none, tool_calls_made := 1 }

/-- A built-in-tools job environment for a failing (non-raising) job. -/
def envV3Fail : JobEnvV3 := { agent := .ok agentResultFail, save_result_error := none }

/-- A v1 job environment for a fully successful job. -/
def envV1Ok : JobEnvV1 :=
  { claude := .ok "#!/usr/bin/env bash\nset -euo pipefail\ncommand -v foo\n" [],
    save_script_error := none,
    save_metadata_error := none,
    check_env :=
      { read_error := none,
        bash_outcome := .completed 0 "" "",
        shellcheck_available := false,
        shellcheck_outcome := .completed 0 "" "",
        re_search := fun _ _ => true,
        re_findall := fun _ _ => [] },
    docker := envDockerOk,
    save_provenance_error := none }

/-- A v1 job environment whose agent reports blockers. -/
def envV1Blockers : JobEnvV1 :=
  { envV1Ok with claude := .ok "" ["no upstream release"] }

/-- A directory entry that has a script but no manifest. -/
def entryAlphaNoManifest : DirEntry :=
  { name := "alpha", is_dir := true, has_setup := true,
    has_manifest := false, manifest_validate_cmd := none }

/-- A validation command containing a single quote, a double quote and a
trailing backslash. -/
def cmdBothQuotesBackslash : String := "echo \x27a\x27 \x22b\x22 \\"

/-- Tools directory for the quoting counterexample: one tool whose manifest
validation command mixes both quote characters and ends in a backslash. -/
def entriesBeta : List DirEntry :=
  [{ name := "beta", is_dir := true, has_setup := true,
     has_manifest := true, manifest_validate_cmd := some cmdBothQuotesBackslash }]

/-- A validation command containing both quote characters and no backslash. -/
def cmdBothQuotes : String := "echo \x22hi\x22 \x27there\x27"

/-- Tools directory for the quoting witness: alpha with no manifest and beta
whose command mixes both quote characters (no backslash). -/
def entriesAlphaBeta : List DirEntry :=
  [{ name := "alpha", is_dir := true, has_setup := true,
     has_manifest := false, manifest_validate_cmd := none },
   { name := "beta", is_dir := true, has_setup := true,
     has_manifest := true, manifest_validate_cmd := some cmdBothQuotes }]

/-- The default docker configuration (all defaults, build timeout 300). -/
def cfgDefault : DockerConfig := {}

/-- A docker configuration with container cleanup disabled. -/
def cfgNoCleanup : DockerConfig := { cleanup_containers := false }

/-! ## Theorems -/

/-- Each static check reports the fixed step name shebang_check. -/
theorem step_validate_shebang (c : String) (e : CheckEnv) :
    (validate_shebang c e).step = "shebang_check" := by
  unfold validate_shebang
  split
  · rfl
  · dsimp only
    split <;> rfl

/-- Each static check reports the fixed step name safety_flags. -/
theorem step_validate_safety_flags (c : String) (e : CheckEnv) :
    (validate_safety_flags c e).step = "safety_flags" := by
  unfold validate_safety_flags
  split
  · rfl
  · split <;> rfl

/-- Each static check reports the fixed step name bash_syntax. -/
theorem step_validate_bash_syntax (e : CheckEnv) :
    (validate_bash_syntax_step e).step = "bash_syntax" := by
  unfold validate_bash_syntax_step
  split
  · split <;> rfl
  · rfl
  · rfl

/-- Each static check reports the fixed step name shellcheck. -/
theorem step_validate_shellcheck (e : CheckEnv) :
    (validate_shellcheck e).step = "shellcheck" := by
  unfold validate_shellcheck
  split
  · rfl
  · split
    · split
      · rfl
      · dsimp only
        split <;> rfl
    · rfl
    · rfl

/-- Each static check reports the fixed step name idempotency_check. -/
theorem step_validate_idempotency (c : String) (e : CheckEnv) :
    (validate_idempotency_pattern c e).step = "idempotency_check" := by
  unfold validate_idempotency_pattern
  split
  · rfl
  · dsimp only
    split <;> rfl

/-- Each static check reports the fixed step name secrets_check. -/
theorem step_validate_no_secrets (c : String) (e : CheckEnv) :
    (validate_no_secrets c e).step = "secrets_check" := by
  unfold validate_no_secrets
  split
  · rfl
  · dsimp only
    split <;> rfl

/-- Claim C3: for every script file that exists, validate_script runs all
six checks with no short-circuit and returns their results in the fixed
order shebang, safety flags, bash syntax, shellcheck, idempotency pattern,
secret pattern — whatever each individual check decides. -/
theorem c3_validate_script_all_checks_in_order (fs : String → Option String)
    (script_path : String) (env : CheckEnv) (content : String)
    (h : fs script_path = some content) :
    validate_script fs script_path env =
      [validate_shebang content env, validate_safety_flags content env,
       validate_bash_syntax_step env, validate_shellcheck env,
       validate_idempotency_pattern content env, validate_no_secrets content env] ∧
    (validate_script fs script_path env).map (fun r => r.step) =
      ["shebang_check", "safety_flags", "bash_syntax", "shellcheck",
       "idempotency_check", "secrets_check"] := by
  have hv : validate_script fs script_path env =
      [validate_shebang content env, validate_safety_flags content env,
       validate_bash_syntax_step env, validate_shellcheck env,
       validate_idempotency_pattern content env, validate_no_secrets content env] := by
    unfold validate_script
    rw [h]
  refine ⟨hv, ?_⟩
  rw [hv]
  simp [step_validate_shebang, step_validate_safety_flags, step_validate_bash_syntax,
    step_validate_shellcheck, step_validate_idempotency, step_validate_no_secrets]

/-- Witness for C3 at a concrete filesystem, path and environment. -/
theorem c3_witness :
    (validate_script (fun _ => some "x") "p" envCheck0).map (fun r => r.step) =
      ["shebang_check", "safety_flags", "bash_syntax", "shellcheck",
       "idempotency_check", "secrets_check"] :=
  (c3_validate_script_all_checks_in_order (fun _ => some "x") "p" envCheck0 "x" rfl).2

/-- Claim C10: for every path that does not exist, validate_script returns
exactly one result, for step file_check with status failed, and none of the
six validation checks runs. -/
theorem c10_missing_file_single_result (fs : String → Option String)
    (script_path : String) (env : CheckEnv) (h : fs script_path = none) :
    validate_script fs script_path env =
      [{ step := "file_check", status := .failed,
         error := some ("Script file not found: " ++ script_path) }] ∧
    (validate_script fs script_path env).map (fun r => r.step) = ["file_check"] := by
  have hv : validate_script fs script_path env =
      [{ step := "file_check", status := .failed,
         error := some ("Script file not found: " ++ script_path) }] := by
    unfold validate_script
    rw [h]
  exact ⟨hv, by rw [hv]; rfl⟩

/-- Witness for C10 at a concrete filesystem, path and environment. -/
theorem c10_witness :
    validate_script (fun _ => none) "p" envCheck0 =
      [{ step := "file_check", status := .failed,
         error := some ("Script file not found: " ++ "p") }] :=
  (c10_missing_file_single_result (fun _ => none) "p" envCheck0 rfl).1

/-- No value in the alias table is one of the python-only names. -/
theorem alias_values_not_python :
    ∀ p ∈ alias_map, ∀ m ∈ p.2, m ∉ python_names := by decide

/-- No replacement target is one of the python-only names. -/
theorem dev_values_not_python :
    ∀ p ∈ dev_replacements, p.2 ∉ python_names := by decide

/-- The python-only names are lower-case fixed points. -/
theorem python_names_lower_fixed : ∀ y ∈ python_names, lowerStr y = y := by decide

/-- A key whose lower-casing is not python-only is itself not python-only. -/
theorem key_not_python_of_lower {key : String} (h : lowerStr key ∉ python_names) :
    key ∉ python_names := by
  intro hk
  exact h (by rw [python_names_lower_fixed key hk]; exact hk)

/-- A successful alias lookup returns a value list of the alias table. -/
theorem alias_lookup_mem {k : String} {v : List String} (h : alias_lookup k = some v) :
    ∃ p ∈ alias_map, p.2 = v := by
  unfold alias_lookup at h
  rcases Option.map_eq_some'.mp h with ⟨p, hp, hv⟩
  exact ⟨p, List.mem_of_find?_eq_some hp, hv⟩

/-- The apt-loop contribution never contains a python-only name. -/
theorem apt_contrib_not_python (a : String) :
    ∀ x ∈ apt_contrib a, x ∉ python_names := by
  intro x hx
  unfold apt_contrib at hx
  dsimp only at hx
  rcases halias : alias_lookup (lowerStr (trimStr a)) with _ | mapped
  · rw [halias] at hx
    dsimp only at hx
    split at hx
    · exact absurd hx (Finset.not_mem_empty x)
    · rw [Finset.mem_singleton] at hx
      subst hx
      exact key_not_python_of_lower (by assumption)
  · rw [halias] at hx
    dsimp only at hx
    split at hx
    · exact absurd hx (Finset.not_mem_empty x)
    · rcases alias_lookup_mem halias with ⟨p, hp, hv⟩
      exact alias_values_not_python p hp x (by rw [hv]; exact List.mem_toFinset.mp hx)

/-- The lib-loop contribution never contains a python-only name. -/
theorem lib_contrib_not_python (l : String) :
    ∀ x ∈ lib_contrib l, x ∉ python_names := by
  intro x hx
  unfold lib_contrib at hx
  dsimp only at hx
  split at hx
  · exact absurd hx (Finset.not_mem_empty x)
  · rcases halias : alias_lookup (lowerStr (trimStr l)) with _ | mapped
    · rw [halias] at hx
      dsimp only at hx
      split at hx
      · rw [Finset.mem_singleton] at hx
        subst hx
        exact key_not_python_of_lower (by assumption)
      · exact absurd hx (Finset.not_mem_empty x)
    · rw [halias] at hx
      dsimp only at hx
      rcases alias_lookup_mem halias with ⟨p, hp, hv⟩
      have hx' := List.mem_toFinset.mp hx
      exact alias_values_not_python p hp x
        (by rw [hv]; exact List.mem_of_mem_filter hx')

/-- The replacement pass preserves freedom from python-only names. -/
theorem apply_dev_pres {s : Finset String} (h : ∀ x ∈ s, x ∉ python_names) :
    ∀ x ∈ apply_dev_replacements s, x ∉ python_names := by
  unfold apply_dev_replacements
  have key : ∀ (l : List (String × String)), (∀ p ∈ l, p.2 ∉ python_names) →
      ∀ (s : Finset String), (∀ x ∈ s, x ∉ python_names) →
      ∀ x ∈ l.foldl
        (fun acc p => if p.1 ∈ acc then insert p.2 (acc.erase p.1) else acc) s,
      x ∉ python_names := by
    intro l
    induction l with
    | nil => intro _ s hs x hx; exact hs x hx
    | cons hd tl ih =>
      intro hl s hs x hx
      refine ih (fun p hp => hl p (List.mem_cons_of_mem hd hp)) _ ?_ x hx
      intro y hy
      dsimp only at hy
      by_cases hc : hd.1 ∈ s
      · rw [if_pos hc] at hy
        rcases Finset.mem_insert.mp hy with h1 | h2
        · subst h1
          exact hl hd (List.mem_cons_self _ _)
        · exact hs y (Finset.mem_erase.mp h2).2
      · rw [if_neg hc] at hy
        exact hs y hy
  exact key dev_replacements dev_values_not_python s h

/-- Sorting a string set yields a sorted list. -/
theorem sortedOf_sorted (s : Finset String) : List.Sorted pyLe (sortedOf s) :=
  Finset.sort_sorted pyLe s

/-- Sorting a string set yields a duplicate-free list. -/
theorem sortedOf_nodup (s : Finset String) : (sortedOf s).Nodup :=
  Finset.sort_nodup pyLe s

/-- Membership in the sorted list is membership in the set. -/
theorem mem_sortedOf {s : Finset String} {x : String} : x ∈ sortedOf s ↔ x ∈ s :=
  Finset.mem_sort pyLe

attribute [irreducible] apply_dev_replacements

/-- The replacement-normalized union of the per-element contributions is free
of python-only names. -/
theorem norm_no_python (apt libs : Finset String) :
    ∀ x ∈ apply_dev_replacements (apt.biUnion apt_contrib ∪ libs.biUnion lib_contrib),
      x ∉ python_names := by
  have hbase : ∀ y ∈ (apt.biUnion apt_contrib ∪ libs.biUnion lib_contrib),
      y ∉ python_names := by
    intro y hy
    rcases Finset.mem_union.mp hy with h1 | h2
    · rcases Finset.mem_biUnion.mp h1 with ⟨a, _, ha⟩
      exact apt_contrib_not_python a y ha
    · rcases Finset.mem_biUnion.mp h2 with ⟨l, _, hl⟩
      exact lib_contrib_not_python l y hl
  exact apply_dev_pres hbase

/-- The apt field of the aggregate is the sorted replacement-normalized union. -/
theorem aggregate_apt (ms : List DependencyManifest) :
    (aggregate ms).apt =
      sortedOf (apply_dev_replacements
        ((union_of (fun m => m.apt) ms).biUnion apt_contrib ∪
         (union_of (fun m => m.libs) ms).biUnion lib_contrib)) := by
  simp only [aggregate, normalize_shared_requirements]

/-- Claim C1: for every collection of per-tool manifests, the aggregator's
normalized apt list contains no python-only name (cartopy, geopandas, h5py),
is sorted ascending in the Python string order, and has no duplicates. -/
theorem c1_apt_excludes_python_only_sorted_nodup (ms : List DependencyManifest) :
    (∀ x ∈ (aggregate ms).apt, x ∉ python_names) ∧
    List.Sorted pyLe (aggregate ms).apt ∧ (aggregate ms).apt.Nodup := by
  refine ⟨?_, by rw [aggregate_apt]; exact sortedOf_sorted _,
    by rw [aggregate_apt]; exact sortedOf_nodup _⟩
  intro x hx
  rw [aggregate_apt, sortedOf, Finset.mem_sort] at hx
  exact norm_no_python _ _ x hx

/-- Set unions over manifests are invariant under permutation of the input. -/
theorem union_of_perm (f : DependencyManifest → List String)
    {ms₁ ms₂ : List DependencyManifest} (h : ms₁.Perm ms₂) :
    union_of f ms₁ = union_of f ms₂ := by
  unfold union_of
  ext x
  simp only [List.mem_toFinset]
  exact (h.flatMap_right f).mem_iff

/-- Claim C8: aggregation is order-independent — two manifest collections
containing the same manifests in different order produce identical
AggregatedManifest values. -/
theorem c8_aggregate_order_independent (ms₁ ms₂ : List DependencyManifest)
    (h : ms₁.Perm ms₂) : aggregate ms₁ = aggregate ms₂ := by
  unfold aggregate
  rw [union_of_perm (fun m => m.apt) h, union_of_perm (fun m => m.runtimes) h,
    union_of_perm (fun m => m.libs) h, union_of_perm (fun m => m.services) h,
    union_of_perm (fun m => m.path_entries) h]

/-- Witness for C8: two concrete manifests aggregated in both orders. -/
theorem c8_witness : aggregate [manifestA, manifestB] = aggregate [manifestB, manifestA] :=
  c8_aggregate_order_independent _ _ (by decide)

/-- The try-block result of run_installation does not depend on the cleanup
behavior of the environment. -/
theorem core_ignores_cleanup (cfg : DockerConfig) (env : DockerEnv)
    (b : CleanupBehavior) :
    run_installation_core cfg { env with cleanup_behavior := b } =
      run_installation_core cfg env := by
  cases env
  rfl

/-- Claim C4 counterexample: when the image build times out under the default
configuration (build timeout 300), the returned result's error field is the
fixed text Failed to build Docker image, which does not mention the phrase
timed out after 300 seconds; that phrase is carried in the output field. -/
theorem c4_counterexample :
    (run_installation cfgDefault specFoo envDockerBuildTimeout).result.error =
      some "Failed to build Docker image" ∧
    containsStr "timed out after 300 seconds" "Failed to build Docker image" = false ∧
    (run_installation cfgDefault specFoo envDockerBuildTimeout).result.output =
      some "Build timed out after 300 seconds" := by
  refine ⟨rfl, by decide, ?_⟩
  show some ("Build timed out after " ++ toString (300 : Nat) ++ " seconds") = _
  decide

/-- Claim C4 (amended): when the build stage of run_installation exceeds the
configured 300-second build timeout, the result has status failed on step
docker_build, its output field is the synthetic message Build timed out
after 300 seconds (the error field is the fixed text Failed to build Docker
image), and the build subprocess has been terminated and reaped. -/
theorem c4_build_timeout_failed_and_reaped (cfg : DockerConfig) (spec : ToolSpec)
    (env : DockerEnv) (hs : env.setup_error = none) (hb : env.build = .timedOut)
    (ht : cfg.build_timeout = 300) :
    (run_installation cfg spec env).result.status = .failed ∧
    (run_installation cfg spec env).result.step = "docker_build" ∧
    (run_installation cfg spec env).result.error = some "Failed to build Docker image" ∧
    (run_installation cfg spec env).result.output =
      some "Build timed out after 300 seconds" ∧
    containsStr "timed out after 300 seconds"
      (optStr (run_installation cfg spec env).result.output) = true ∧
    (run_installation cfg spec env).build_proc = .reaped := by
  have hcore : run_installation_core cfg env =
      ({ step := "docker_build", status := .failed,
         error := some "Failed to build Docker image",
         output := some ("Build timed out after " ++ toString cfg.build_timeout ++
           " seconds") }, .reaped, .not_started) := by
    unfold run_installation_core build_image
    rw [hs, hb]
    rfl
  have hr : (run_installation cfg spec env).result = (run_installation_core cfg env).1 := by
    unfold run_installation
    rcases run_installation_core cfg env with ⟨res, bp, rp⟩
    rfl
  have hbp : (run_installation cfg spec env).build_proc =
      (run_installation_core cfg env).2.1 := by
    unfold run_installation
    rcases run_installation_core cfg env with ⟨res, bp, rp⟩
    rfl
  rw [hr, hbp, hcore, ht]
  refine ⟨rfl, rfl, rfl, by decide, by decide, rfl⟩

/-- Witness for C4 at the default configuration and a concrete timing-out
environment. -/
theorem c4_witness :
    (run_installation cfgDefault specFoo envDockerBuildTimeout).result.status =
      VStatus.failed ∧
    (run_installation cfgDefault specFoo envDockerBuildTimeout).result.output =
      some "Build timed out after 300 seconds" := by
  have h := c4_build_timeout_failed_and_reaped cfgDefault specFoo envDockerBuildTimeout
    rfl rfl rfl
  exact ⟨h.1, h.2.2.2.1⟩

/-- Claim C5 counterexample: with cleanup_containers configured false, a
successful attempt (whose run stage created the named container) invokes no
removal command at all, so the named container is not force-removed. -/
theorem c5_counterexample :
    (run_installation cfgNoCleanup specFoo envDockerOk).cleanup_actions = [] ∧
    (run_installation cfgNoCleanup specFoo envDockerOk).result.status = .passed := by
  constructor
  · rfl
  · rfl

/-- Claim C5 (amended): when cleanup_containers is configured true (the
default), cleanup runs on every exit path: the first command invoked always
force-removes the named container; when cleanup raises no exception, the
image is removed as well; and cleanup behavior (including failures, which
are caught inside _cleanup) never changes the ValidationResult already
computed. -/
theorem c5_cleanup_always_runs_and_is_harmless (cfg : DockerConfig) (spec : ToolSpec)
    (env : DockerEnv) (h : cfg.cleanup_containers = true) :
    ((run_installation cfg spec env).cleanup_actions.head? =
      some (.rm_container (container_name spec env.timestamp))) ∧
    (env.cleanup_behavior = .ok →
      (run_installation cfg spec env).cleanup_actions =
        [.rm_container (container_name spec env.timestamp),
         .rm_image (container_name spec env.timestamp ++ ":latest")]) ∧
    (∀ b₁ b₂ : CleanupBehavior,
      (run_installation cfg spec { env with cleanup_behavior := b₁ }).result =
      (run_installation cfg spec { env with cleanup_behavior := b₂ }).result) := by
  have hact : (run_installation cfg spec env).cleanup_actions =
      docker_cleanup (container_name spec env.timestamp) env.cleanup_behavior := by
    unfold run_installation
    rcases hc : run_installation_core cfg env with ⟨res, bp, rp⟩
    simp only [h, if_true]
  refine ⟨?_, ?_, ?_⟩
  · rw [hact]
    cases env.cleanup_behavior <;> rfl
  · intro he
    rw [hact, he]
    rfl
  · intro b₁ b₂
    have e₁ := core_ignores_cleanup cfg env b₁
    have e₂ := core_ignores_cleanup cfg env b₂
    show (run_installation_core cfg _).1 = (run_installation_core cfg _).1
    rw [e₁, e₂]

/-- Witness for C5 at the default configuration and a concrete successful
environment. -/
theorem c5_witness :
    (run_installation cfgDefault specFoo envDockerOk).cleanup_actions.head? =
      some (CleanupAction.rm_container (container_name specFoo 7)) :=
  (c5_cleanup_always_runs_and_is_harmless cfgDefault specFoo envDockerOk rfl).1

/-- Claim C6 counterexample: a directory holding tool_setup.sh but no
tool_manifest.json is still discovered by the Composer, so discovery does
not require both a script and a manifest. -/
theorem c6_counterexample :
    list_tools [entryAlphaNoManifest] = ["alpha"] ∧
    entryAlphaNoManifest.has_manifest = false := by
  constructor
  · rfl
  · rfl

/-- Claim C6 (amended): the Composer discovers exactly the tools in the run
directory whose entry is a directory containing tool_setup.sh — a manifest
is not required — and lists them in lexicographic order by tool name. -/
theorem c6_list_tools_script_only_sorted (entries : List DirEntry) :
    List.Sorted pyLe (list_tools entries) ∧
    (∀ n, n ∈ list_tools entries ↔
      ∃ d ∈ entries, d.name = n ∧ d.is_dir = true ∧ d.has_setup = true) := by
  constructor
  · have hs : List.Sorted dirLe (List.insertionSort dirLe entries) :=
      List.sorted_insertionSort dirLe entries
    have hf : List.Pairwise dirLe
        ((List.insertionSort dirLe entries).filter (fun d => d.is_dir && d.has_setup)) :=
      List.Pairwise.filter _ hs
    exact List.pairwise_map.mpr hf
  · intro n
    unfold list_tools
    simp only [List.mem_map, List.mem_filter, Bool.and_eq_true,
      (List.perm_insertionSort dirLe entries).mem_iff]
    constructor
    · rintro ⟨d, ⟨hd, hdir, hsetup⟩, hname⟩
      exact ⟨d, hd, hname, hdir, hsetup⟩
    · rintro ⟨d, hd, hname, hdir, hsetup⟩
      exact ⟨d, ⟨hd, hdir, hsetup⟩, hname⟩

/-- Claim C2 counterexample: a successfully processed job in the orchestrator
wired into main.py persists only in_progress and completed — the generating
and validating statuses required by the claim are never written. -/
theorem c2_counterexample :
    (process_tool_v3 specFoo envV3Ok).2.map (fun w => w.status) =
      [TStatus.in_progress, TStatus.completed] ∧
    TStatus.generating ∉ (process_tool_v3 specFoo envV3Ok).2.map (fun w => w.status) ∧
    TStatus.validating ∉ (process_tool_v3 specFoo envV3Ok).2.map (fun w => w.status) := by
  refine ⟨rfl, ?_, ?_⟩ <;> decide

/-- Claim C2 (amended): in the staged orchestrator (orchestrator_v1), each
job's persisted status sequence is in_progress, generating, then a prefix of
validating, installing, ending in completed or failed; installing never
appears in dry-run mode. In the built-in-tools orchestrator actually wired
into main.py, the persisted sequence is in_progress followed by completed or
failed, with one further failed write when saving the result artifact fails
after the verdict write. -/
theorem c2_status_sequences (dry_run : Bool) (docker_cfg : DockerConfig)
    (spec : ToolSpec) (env : JobEnvV1) (spec3 : ToolSpec) (env3 : JobEnvV3) :
    ((process_tool_v1 dry_run docker_cfg spec env).2.map (fun w => w.status)) ∈
      (if dry_run then
        [[TStatus.in_progress, .generating, .failed],
         [.in_progress, .generating, .validating, .failed],
         [.in_progress, .generating, .validating, .completed]]
       else
        [[TStatus.in_progress, .generating, .failed],
         [.in_progress, .generating, .validating, .failed],
         [.in_progress, .generating, .validating, .completed],
         [.in_progress, .generating, .validating, .installing, .failed],
         [.in_progress, .generating, .validating, .installing, .completed]]) ∧
    ((process_tool_v3 spec3 env3).2.map (fun w => w.status)) ∈
      [[TStatus.in_progress, .completed], [.in_progress, .failed],
       [.in_progress, .completed, .failed], [.in_progress, .failed, .failed]] := by
  constructor
  · unfold process_tool_v1 finish_v1
    rcases env.claude with ⟨script, blockers⟩ | m
    · by_cases hb : blockers = [] <;>
      rcases hs1 : env.save_script_error with _ | m1 <;>
      rcases hs2 : env.save_metadata_error with _ | m2 <;>
      rcases hs3 : env.save_provenance_error with _ | m3 <;>
      by_cases hv : (validate_script
          (fun p => if p = script_path_of spec.name then some script else none)
          (script_path_of spec.name) env.check_env).any
          (fun v => v.status = VStatus.failed) = true <;>
      by_cases hd : (run_installation docker_cfg spec env.docker).result.status =
          VStatus.failed <;>
      cases dry_run <;>
      simp [hb, hs1, hs2, hs3, hv, hd]
    · cases dry_run <;> simp
  · unfold process_tool_v3
    rcases env3.agent with ⟨r⟩ | m
    · rcases hs : env3.save_result_error with _ | m1 <;> cases hr : r.success <;>
        simp [hs, hr]
    · rcases hs : env3.save_result_error with _ | m1 <;> simp [hs]

/-- Truncating to 200 characters yields a string of length at most 200. -/
theorem strTake_length_le (n : Nat) (s : String) : (strTake n s).length ≤ n := by
  show (s.data.take n).length ≤ n
  rw [List.length_take]
  exact min_le_left n s.data.length

/-- Claim C9 counterexample: when the built-in-tools agent call raises with a
250-character message, the orchestrator records failed with the untruncated
message — the recorded error summary is 270 characters long, exceeding 200. -/
theorem c9_counterexample :
    (process_tool_v3 specFoo envV3LongRaise).2 =
      [{ status := .in_progress,
         message := some "Claude agent working with built-in tools...",
         artifact_path := none },
       { status := .failed, message := some ("Claude agent error: " ++ long_err),
         artifact_path := none }] ∧
    200 < ("Claude agent error: " ++ long_err).length := by
  constructor
  · rfl
  · decide

/-- Claim C9 (amended): a failing job ends with a failed status write; after
the first failed write no further pipeline-stage status is recorded (only a
duplicate failed write can follow); the error summary is truncated to at most
200 characters only in the built-in-tools agent-failure branch (other failure
paths record the untruncated message); and jobs are processed independently —
the collection of results is a pointwise map, so one job's failure leaves the
other jobs' results unchanged. -/
theorem c9_failure_recording_and_isolation :
    (∀ (dry : Bool) (cfg : DockerConfig) (spec : ToolSpec) (env : JobEnvV1),
      (process_tool_v1 dry cfg spec env).1 = false →
      ((process_tool_v1 dry cfg spec env).2.map (fun w => w.status)).getLast? =
        some .failed) ∧
    (∀ (spec : ToolSpec) (env : JobEnvV3),
      (process_tool_v3 spec env).1 = false →
      ((process_tool_v3 spec env).2.map (fun w => w.status)).getLast? = some .failed) ∧
    (∀ (dry : Bool) (cfg : DockerConfig) (spec : ToolSpec) (env : JobEnvV1),
      after_failed_all_failed
        ((process_tool_v1 dry cfg spec env).2.map (fun w => w.status)) = true) ∧
    (∀ (spec : ToolSpec) (env : JobEnvV3),
      after_failed_all_failed
        ((process_tool_v3 spec env).2.map (fun w => w.status)) = true) ∧
    (∀ (spec : ToolSpec) (env : JobEnvV3) (r : AgentResult),
      env.agent = .ok r → r.success = false →
      (process_tool_v3 spec env).2[1]? =
        some { status := .failed,
               message := some ("Installation failed: " ++
                 strTake 200 (joinWith "; " (r.errors.getD ["Unknown error"]))),
               artifact_path := none } ∧
      (strTake 200 (joinWith "; " (r.errors.getD ["Unknown error"]))).length ≤ 200) ∧
    (∀ (dry : Bool) (cfg : DockerConfig) (jobs₁ jobs₂ : List (ToolSpec × JobEnvV1))
      (j : ToolSpec × JobEnvV1),
      run_jobs_v1 dry cfg (jobs₁ ++ j :: jobs₂) =
        run_jobs_v1 dry cfg jobs₁ ++ process_tool_v1 dry cfg j.1 j.2 ::
          run_jobs_v1 dry cfg jobs₂) := by
  refine ⟨?_, ?_, ?_, ?_, ?_, ?_⟩
  · intro dry cfg spec env
    unfold process_tool_v1 finish_v1
    rcases env.claude with ⟨script, blockers⟩ | m
    · by_cases hb : blockers = [] <;>
      rcases hs1 : env.save_script_error with _ | m1 <;>
      rcases hs2 : env.save_metadata_error with _ | m2 <;>
      rcases hs3 : env.save_provenance_error with _ | m3 <;>
      by_cases hv : (validate_script
          (fun p => if p = script_path_of spec.name then some script else none)
          (script_path_of spec.name) env.check_env).any
          (fun v => v.status = VStatus.failed) = true <;>
      by_cases hd : (run_installation cfg spec env.docker).result.status =
          VStatus.failed <;>
      cases dry <;>
      simp [hb, hs1, hs2, hs3, hv, hd]
    · cases dry <;> simp
  · intro spec env
    unfold process_tool_v3
    rcases env.agent with ⟨r⟩ | m
    · rcases hs : env.save_result_error with _ | m1 <;> cases hr : r.success <;>
        simp [hs, hr]
    · rcases hs : env.save_result_error with _ | m1 <;> simp [hs]
  · intro dry cfg spec env
    unfold process_tool_v1 finish_v1
    rcases env.claude with ⟨script, blockers⟩ | m
    · by_cases hb : blockers = [] <;>
      rcases hs1 : env.save_script_error with _ | m1 <;>
      rcases hs2 : env.save_metadata_error with _ | m2 <;>
      rcases hs3 : env.save_provenance_error with _ | m3 <;>
      by_cases hv : (validate_script
          (fun p => if p = script_path_of spec.name then some script else none)
          (script_path_of spec.name) env.check_env).any
          (fun v => v.status = VStatus.failed) = true <;>
      by_cases hd : (run_installation cfg spec env.docker).result.status =
          VStatus.failed <;>
      cases dry <;>
      simp [hb, hs1, hs2, hs3, hv, hd, after_failed_all_failed]
    · cases dry <;> simp [after_failed_all_failed]
  · intro spec env
    unfold process_tool_v3
    rcases env.agent with ⟨r⟩ | m
    · rcases hs : env.save_result_error with _ | m1 <;> cases hr : r.success <;>
        simp [hs, hr, after_failed_all_failed]
    · rcases hs : env.save_result_error with _ | m1 <;>
        simp [hs, after_failed_all_failed]
  · intro spec env r ha hr
    unfold process_tool_v3
    rw [ha]
    rcases hs : env.save_result_error with _ | m1 <;> simp [hs, hr] <;>
      exact strTake_length_le 200 _
  · intro dry cfg jobs₁ jobs₂ j
    unfold run_jobs_v1
    simp

/-- Witness for C9 at a concrete blockers failure in the staged orchestrator. -/
theorem c9_witness :
    ((process_tool_v1 false cfgDefault specFoo envV1Blockers).2.map
      (fun w => w.status)).getLast? = some TStatus.failed :=
  c9_failure_recording_and_isolation.1 false cfgDefault specFoo envV1Blockers rfl

/-- A plain character leaves the outside lexer state unchanged. -/
theorem lexChar_normal_plain {c : Char} (h1 : ¬(c = '\x27')) (h2 : ¬(c = '\x22'))
    (h3 : ¬(c = '\\')) : lexChar .normal c = .normal := by
  unfold lexChar
  rw [if_neg h3, if_neg h1, if_neg h2]

/-- A non-quote character leaves the single-quote state unchanged. -/
theorem lexChar_inSingle_stay {c : Char} (h : ¬(c = '\x27')) :
    lexChar .inSingle c = .inSingle := by
  unfold lexChar
  dsimp only
  rw [if_neg h]

/-- A character that is neither a backslash nor a double quote leaves the
double-quote state unchanged. -/
theorem lexChar_inDouble_stay {c : Char} (h3 : ¬(c = '\\')) (h2 : ¬(c = '\x22')) :
    lexChar .inDouble c = .inDouble := by
  unfold lexChar
  dsimp only
  rw [if_neg h3, if_neg h2]

/-- Folding the lexer over plain characters keeps the outside state. -/
theorem foldl_lexChar_normal : ∀ (l : List Char),
    (∀ c ∈ l, ¬(c = '\x27') ∧ ¬(c = '\x22') ∧ ¬(c = '\\')) →
    l.foldl lexChar .normal = .normal := by
  intro l
  induction l with
  | nil => intro _; rfl
  | cons c t ih =>
    intro h
    have hc := h c (by simp)
    rw [List.foldl_cons, lexChar_normal_plain hc.1 hc.2.1 hc.2.2]
    exact ih (fun x hx => h x (by simp [hx]))

/-- Folding the lexer over quote-free characters keeps the single-quote state. -/
theorem foldl_lexChar_inSingle : ∀ (l : List Char), (∀ c ∈ l, ¬(c = '\x27')) →
    l.foldl lexChar .inSingle = .inSingle := by
  intro l
  induction l with
  | nil => intro _; rfl
  | cons c t ih =>
    intro h
    rw [List.foldl_cons, lexChar_inSingle_stay (h c (by simp))]
    exact ih (fun x hx => h x (by simp [hx]))

/-- Folding the lexer over backslash-free, double-quote-free characters keeps
the double-quote state. -/
theorem foldl_lexChar_inDouble : ∀ (l : List Char),
    (∀ c ∈ l, ¬(c = '\\') ∧ ¬(c = '\x22')) →
    l.foldl lexChar .inDouble = .inDouble := by
  intro l
  induction l with
  | nil => intro _; rfl
  | cons c t ih =>
    intro h
    have hc := h c (by simp)
    rw [List.foldl_cons, lexChar_inDouble_stay hc.1 hc.2]
    exact ih (fun x hx => h x (by simp [hx]))

/-- Folding the lexer over the double-quote-escaped form of backslash-free
characters keeps the double-quote state: each escaped quote passes through
the escape state and returns. -/
theorem foldl_lexChar_escDq : ∀ (l : List Char), (∀ c ∈ l, ¬(c = '\\')) →
    (l.flatMap (fun c => if c = '\x22' then ['\\', '\x22'] else [c])).foldl
      lexChar .inDouble = .inDouble := by
  intro l
  induction l with
  | nil => intro _; rfl
  | cons c t ih =>
    intro h
    rw [List.flatMap_cons, List.foldl_append]
    by_cases hc : c = '\x22'
    · rw [if_pos hc]
      have h2 : (['\\', '\x22'] : List Char).foldl lexChar .inDouble = .inDouble := rfl
      rw [h2]
      exact ih (fun x hx => h x (by simp [hx]))
    · rw [if_neg hc]
      have h2 : ([c] : List Char).foldl lexChar .inDouble = .inDouble := by
        rw [List.foldl_cons, lexChar_inDouble_stay (h c (by simp)) hc]
        rfl
      rw [h2]
      exact ih (fun x hx => h x (by simp [hx]))

/-- The character-wise facts packaged by plain_name. -/
theorem plain_chars {s : String} (h : plain_name s = true) :
    ∀ c ∈ s.data, ¬(c = '\x27') ∧ ¬(c = '\x22') ∧ ¬(c = '\\') := by
  intro c hc
  have h2 := (List.all_eq_true.mp h) c hc
  simp only [plainChar, Bool.and_eq_true, Bool.not_eq_true',
    decide_eq_false_iff_not] at h2
  exact ⟨h2.1.1, h2.1.2, h2.2⟩

/-- A character of a string on which hasChar is false differs from that
character. -/
theorem no_char_of_hasChar_false {ch : Char} {s : String}
    (h : hasChar ch s = false) : ∀ c ∈ s.data, ¬(c = ch) := by
  intro c hc he
  subst he
  have h2 : s.data.contains c = true := List.elem_eq_true_of_mem hc
  unfold hasChar at h
  rw [h] at h2
  exact Bool.noConfusion h2

/-- The characters of a backslash-free string are not backslashes. -/
theorem no_backslash_chars {s : String} (h : no_backslash s = true) :
    ∀ c ∈ s.data, ¬(c = '\\') := by
  have h2 : s.data.contains '\\' = false := by
    unfold no_backslash at h
    simpa using h
  intro c hc he
  subst he
  have h3 : s.data.contains '\\' = true := List.elem_eq_true_of_mem hc
  rw [h2] at h3
  exact Bool.noConfusion h3

/-- Lexing distributes over string concatenation. -/
theorem lexStr_append (st : QState) (a b : String) :
    lexStr st (a ++ b) = lexStr (lexStr st a) b := by
  unfold lexStr
  rw [String.data_append, List.foldl_append]

/-- Lexing a plain string from the outside state stays outside. -/
theorem lexStr_plain {s : String} (h : plain_name s = true) :
    lexStr .normal s = .normal :=
  foldl_lexChar_normal s.data (plain_chars h)

/-- Lexing a quote-free string inside single quotes stays there. -/
theorem lexStr_inSingle {s : String} (h : ∀ c ∈ s.data, ¬(c = '\x27')) :
    lexStr .inSingle s = .inSingle :=
  foldl_lexChar_inSingle s.data h

/-- Lexing a backslash-free double-quote-free string inside double quotes
stays there. -/
theorem lexStr_inDouble {s : String} (h : ∀ c ∈ s.data, ¬(c = '\\') ∧ ¬(c = '\x22')) :
    lexStr .inDouble s = .inDouble :=
  foldl_lexChar_inDouble s.data h

/-- Lexing the escaped form of a backslash-free string inside double quotes
stays there. -/
theorem lexStr_escDq {s : String} (h : no_backslash s = true) :
    lexStr .inDouble (escDq s) = .inDouble :=
  foldl_lexChar_escDq s.data (no_backslash_chars h)

/-- The first line of a tool block is well quoted for a plain tool name. -/
theorem line_installing_ok {n : String} (h : plain_name n = true) :
    lexStr .normal ("log \x27Installing " ++ n ++ "\x27") = .normal := by
  rw [lexStr_append, lexStr_append]
  have h1 : lexStr QState.normal "log \x27Installing " = .inSingle := by decide
  rw [h1, lexStr_inSingle (fun c hc => (plain_chars h c hc).1)]
  decide

/-- The chmod line of a tool block is well quoted for a plain tool name. -/
theorem line_chmod_ok {n : String} (h : plain_name n = true) :
    lexStr .normal ("chmod +x /workspace/tools/" ++ n ++ "/tool_setup.sh") =
      .normal := by
  rw [lexStr_append, lexStr_append]
  have h1 : lexStr QState.normal "chmod +x /workspace/tools/" = .normal := by decide
  rw [h1, lexStr_plain h]
  decide

/-- The install-invocation line of a tool block is well quoted for a plain
tool name. -/
theorem line_invoke_ok {n : String} (h : plain_name n = true) :
    lexStr .normal ("/workspace/tools/" ++ n ++
      "/tool_setup.sh --skip-prereqs || /workspace/tools/" ++ n ++
      "/tool_setup.sh") = .normal := by
  rw [lexStr_append, lexStr_append, lexStr_append, lexStr_append]
  have h1 : lexStr QState.normal "/workspace/tools/" = .normal := by decide
  have h2 : lexStr QState.normal
      "/tool_setup.sh --skip-prereqs || /workspace/tools/" = .normal := by decide
  rw [h1, lexStr_plain h, h2, lexStr_plain h]
  decide

/-- The validation line is well quoted whenever the tool name is plain and
the effective validation command is backslash-free. -/
theorem line_validation_ok (entries : List DirEntry) {n : String}
    (hn : plain_name n = true)
    (hc : no_backslash (validate_cmd_of entries n) = true) :
    lexStr .normal (validation_line entries n) = .normal := by
  unfold validation_line
  dsimp only
  have hpre : lexStr QState.normal "log \x27Validating " = .inSingle := by decide
  have hname : lexStr QState.inSingle n = .inSingle :=
    lexStr_inSingle (fun c h' => (plain_chars hn c h').1)
  split
  · rename_i hcond
    have hq : hasChar '\x27' (validate_cmd_of entries n) = false := by
      simp only [Bool.and_eq_true, Bool.not_eq_true'] at hcond
      exact hcond.2
    rw [lexStr_append, lexStr_append, lexStr_append, lexStr_append, hpre, hname]
    have hmid : lexStr QState.inSingle "\x27 && bash -lc \x27" = .inSingle := by decide
    rw [hmid, lexStr_inSingle (no_char_of_hasChar_false hq)]
    decide
  · split
    · rename_i hcond
      have hq : hasChar '\x22' (validate_cmd_of entries n) = false := by
        simp only [Bool.and_eq_true, Bool.not_eq_true'] at hcond
        exact hcond.2
      rw [lexStr_append, lexStr_append, lexStr_append, lexStr_append, hpre, hname]
      have hmid : lexStr QState.inSingle "\x27 && bash -lc \x22" = .inDouble := by decide
      have hcmd : lexStr QState.inDouble (validate_cmd_of entries n) = .inDouble :=
        lexStr_inDouble (fun c h' =>
          ⟨no_backslash_chars hc c h', no_char_of_hasChar_false hq c h'⟩)
      rw [hmid, hcmd]
      decide
    · rw [lexStr_append, lexStr_append, lexStr_append, lexStr_append, hpre, hname]
      have hmid : lexStr QState.inSingle "\x27 && bash -lc \x22" = .inDouble := by decide
      rw [hmid, lexStr_escDq hc]
      decide

/-- Each header line of run_all.sh is well quoted. -/
theorem run_all_header_ok : ∀ l ∈ run_all_header, lexStr .normal l = .normal := by
  decide

/-- Every line of a tool block is well quoted under the plainness
hypotheses. -/
theorem tool_block_ok (entries : List DirEntry) {n : String}
    (hn : plain_name n = true)
    (hc : no_backslash (validate_cmd_of entries n) = true) :
    ∀ l ∈ tool_block entries n, lexStr .normal l = .normal := by
  intro l hl
  simp only [tool_block, List.mem_cons, List.not_mem_nil, or_false] at hl
  rcases hl with rfl | rfl | rfl | rfl
  · exact line_installing_ok hn
  · exact line_chmod_ok hn
  · exact line_invoke_ok hn
  · exact line_validation_ok entries hn hc

/-- Joining well-quoted lines with newlines, plus a trailing newline, is well
quoted. -/
theorem lexStr_joinNl : ∀ (lines : List String),
    (∀ l ∈ lines, lexStr .normal l = .normal) →
    lexStr .normal (joinNl lines ++ "\n") = .normal := by
  intro lines
  induction lines with
  | nil => intro _; decide
  | cons l rest ih =>
    intro h
    cases rest with
    | nil =>
      show lexStr .normal (l ++ "\n") = .normal
      rw [lexStr_append, h l (by simp)]
      decide
    | cons l' ls =>
      show lexStr .normal ((l ++ "\n" ++ joinNl (l' :: ls)) ++ "\n") = .normal
      have hassoc : (l ++ "\n" ++ joinNl (l' :: ls)) ++ "\n" =
          (l ++ "\n") ++ (joinNl (l' :: ls) ++ "\n") := by
        rw [String.append_assoc]
      rw [hassoc, lexStr_append, lexStr_append QState.normal l "\n", h l (by simp)]
      have hnl : lexStr QState.normal "\n" = .normal := by decide
      rw [hnl]
      exact ih (fun x hx => h x (by simp [hx]))

/-- Claim C7 counterexample: for the tool beta whose manifest validation
command contains a single quote, a double quote and a trailing backslash,
the generated driver script is not well quoted — the escaped trailing
backslash swallows the closing double quote, so bash parsing fails on an
unterminated string. -/
theorem c7_counterexample :
    hasChar '\x27' cmdBothQuotesBackslash = true ∧
    hasChar '\x22' cmdBothQuotesBackslash = true ∧
    well_quoted (run_all_content entriesBeta ["beta"]) = false := by
  refine ⟨by decide, by decide, by decide⟩

/-- Claim C7 (amended): for plain tool names and effective validation
commands free of backslashes, a command containing both a single quote and a
double quote is emitted through the third escaping path (backslash-escaped
double quotes inside a double-quoted invocation), and the whole generated
driver script is well quoted (every quote opened is closed, so bash does not
fail on quoting). -/
theorem c7_escaping_path_and_well_quoted (entries : List DirEntry)
    (tool_names : List String)
    (hn : ∀ n ∈ tool_names, plain_name n = true)
    (hc : ∀ n ∈ tool_names, no_backslash (validate_cmd_of entries n) = true) :
    well_quoted (run_all_content entries tool_names) = true ∧
    (∀ n ∈ tool_names,
      hasChar '\x27' (validate_cmd_of entries n) = true →
      hasChar '\x22' (validate_cmd_of entries n) = true →
      validation_line entries n =
        "log \x27Validating " ++ n ++ "\x27 && bash -lc \x22" ++
          escDq (validate_cmd_of entries n) ++ "\x22") := by
  constructor
  · have hlines : ∀ l ∈ run_all_lines entries tool_names,
        lexStr .normal l = .normal := by
      intro l hl
      unfold run_all_lines at hl
      rcases List.mem_append.mp hl with h | h
      · exact run_all_header_ok l h
      · rcases List.mem_flatMap.mp h with ⟨n, hmem, hblock⟩
        exact tool_block_ok entries (hn n hmem) (hc n hmem) l hblock
    unfold well_quoted run_all_content
    rw [lexStr_joinNl (run_all_lines entries tool_names) hlines]
    rfl
  · intro n _ h27 h22
    unfold validation_line
    rw [if_neg (by simp [h27]), if_neg (by simp [h22])]

/-- Witness for C7: the two-tool run alpha, beta where beta's command mixes
both quote characters; the driver script is well quoted and beta's command
goes through the escaping path. -/
theorem c7_witness :
    well_quoted (run_all_content entriesAlphaBeta ["alpha", "beta"]) = true ∧
    validation_line entriesAlphaBeta "beta" =
      "log \x27Validating " ++ "beta" ++ "\x27 && bash -lc \x22" ++
        escDq (validate_cmd_of entriesAlphaBeta "beta") ++ "\x22" := by
  have h := c7_escaping_path_and_well_quoted entriesAlphaBeta ["alpha", "beta"]
    (by decide) (by decide)
  exact ⟨h.1, h.2 "beta" (by decide) (by decide) (by decide)⟩

end ToolAutomation
